import Mathlib

/-!
# Route resolution for URL-to-blob copies and the Linux security-descriptor reader

A shallow embedding of two Go source files of the transfer engine:

* `ste/s2sCopier-URLToBlob.go`: `LogBlobConversionOnce` and `newURLToBlobCopier`;
* `ste/sourceInfoProvider-Local_linux.go`: `localFileSourceInfoProvider.GetSDDL`.

Go strings are modelled by `String`, and the byte-wise library routines that the code
calls with ASCII needles (`strings.Replace`, `filepath.Ext`, `strings.TrimSpace`) are
modelled on the list of characters, which finds the same occurrences because UTF-8 is
self-synchronising.  Calls into packages that are not part of the two files (`net/url`,
`azblob`, `sddl`) are taken as parameters; side effects (calls made, log lines, the
one-shot guard, panics) are made explicit as a trace, a guard state and a result value.
-/

namespace AzCopy

/-! ## Go library routines on strings -/

/-- The Go call `strings.Replace(s, old, new, 1)`: the first occurrence of `old` in `s`
is replaced by `new`; without an occurrence `s` is returned as it is. -/
def replaceFirst (old new : List Char) : List Char → List Char
  | [] => if old.isPrefixOf [] then new else []
  | c :: cs =>
    if old.isPrefixOf (c :: cs) then new ++ (c :: cs).drop old.length
    else c :: replaceFirst old new cs

/-- Number of positions of `s` at which `old` occurs. -/
def occurrences (old : List Char) : List Char → Nat
  | [] => if old.isPrefixOf [] then 1 else 0
  | c :: cs => (if old.isPrefixOf (c :: cs) then 1 else 0) + occurrences old cs

/-- The host marker of the hierarchical (dfs) endpoint. -/
def dfsMarker : List Char := ['.', 'd', 'f', 's']

/-- The host marker of the flat (blob) endpoint. -/
def blobMarker : List Char := ['.', 'b', 'l', 'o', 'b']

/-- Line 51: `strings.Replace(bURLParts.Host, ".dfs", ".blob", 1)`. -/
def replaceHost (host : String) : String :=
  ⟨replaceFirst dfsMarker blobMarker host.data⟩

/-- Loop of Go's `filepath.Ext`, run over the reversed path: walk back from the last
character, stop at a path separator, and return the suffix that starts at the first dot
met. `acc` holds the characters already walked over, in path order. -/
def extScan : List Char → List Char → List Char
  | [], _ => []
  | c :: rest, acc =>
    if c = '/' then []
    else if c = '.' then '.' :: acc
    else extScan rest (c :: acc)

/-- Go's `filepath.Ext(path)`: the suffix beginning at the final dot in the final
element of `path`, empty if there is no dot. -/
def Ext (path : String) : String := ⟨extScan path.data.reverse []⟩

/-- Go's `unicode.IsSpace`. -/
def isSpace (c : Char) : Bool :=
  let n := c.toNat
  (9 ≤ n && n ≤ 13) || n = 0x20 || n = 0x85 || n = 0xA0 || n = 0x1680 ||
  (0x2000 ≤ n && n ≤ 0x200A) || n = 0x2028 || n = 0x2029 || n = 0x202F ||
  n = 0x205F || n = 0x3000

/-- Go's `strings.TrimSpace`: all leading and trailing white space removed. -/
def TrimSpace (s : String) : String :=
  ⟨(((s.data.dropWhile isSpace).reverse).dropWhile isSpace).reverse⟩

/-! ## `net/url` and `azblob.BlobURLParts` -/

/-- The fields of Go's `url.URL` that the code reads or that `BlobURLParts.URL()` sets. -/
structure URL where
  Scheme : String
  Host : String
  Path : String
  RawQuery : String
  deriving DecidableEq

/-- The type `azblob.BlobURLParts`; `SAS` stands for the rendered SAS query parameters. -/
structure BlobURLParts where
  Scheme : String
  Host : String
  ContainerName : String
  BlobName : String
  Snapshot : String
  SAS : String
  UnparsedParams : String
  VersionID : String
  deriving DecidableEq

/-- The type `url.Error`, the error of `url.Parse`: the operation, the URL it was given
and the message of the underlying error. -/
structure URLError where
  Op : String
  URL : String
  Err : String
  deriving DecidableEq

/-- The library functions on URLs that `newURLToBlobCopier` calls. They belong to the Go
standard library and to the blob SDK, so they are parameters of the model. -/
structure URLFuns where
  /-- The function `url.Parse`. -/
  Parse : String → Except URLError URL
  /-- The method `(*url.URL).String`. -/
  URLString : URL → String
  /-- The function `azblob.NewBlobURLParts`. -/
  NewBlobURLParts : URL → BlobURLParts
  /-- The method `azblob.BlobURLParts.URL`. -/
  PartsURL : BlobURLParts → URL

/-- Lines 44-53 of `newURLToBlobCopier`: the destination is parsed, the `.dfs` marker of
its host is replaced by `.blob` (first occurrence only) and the URL is rendered again;
a parse failure is returned. -/
def rewriteToBlobEndpoint (lib : URLFuns) (destination : String) :
    Except URLError String :=
  match lib.Parse destination with
  | .error err => .error err
  | .ok u =>
    let bURLParts := lib.NewBlobURLParts u
    let bURLParts := { bURLParts with Host := replaceHost bURLParts.Host }
    let newDest := lib.PartsURL bURLParts
    .ok (lib.URLString newDest)

/-! ## Enumerations of the `common`, `azblob` and `pipeline` packages -/

/-- The type `azblob.BlobType`, with the constants the SDK declares. `BlobNone` is the
unset value. -/
inductive AzBlobType
  | BlobNone
  | BlobBlockBlob
  | BlobPageBlob
  | BlobAppendBlob
  deriving DecidableEq

/-- The type `common.BlobType`: the blob type asked for by the user, `Detect` when none
was given. -/
inductive BlobType
  | Detect
  | BlockBlob
  | PageBlob
  | AppendBlob
  deriving DecidableEq

/-- Modelled from the spec: `common.BlobType.ToAzBlobType` is declared outside the two
source files. An explicit override names the representation of the same name, and
`Detect` converts to the unset value `azblob.BlobNone`. -/
def BlobType.ToAzBlobType : BlobType → AzBlobType
  | .Detect => .BlobNone
  | .BlockBlob => .BlobBlockBlob
  | .PageBlob => .BlobPageBlob
  | .AppendBlob => .BlobAppendBlob

/-- The type `common.Location`. -/
inductive Location
  | Unknown
  | Local
  | Pipe
  | Blob
  | File
  | BlobFS
  | S3
  | Benchmark
  | GCP
  deriving DecidableEq

/-- The type `common.EntityType`. -/
inductive EntityType
  | File
  | Folder
  | Symlink
  deriving DecidableEq

/-- The type `pipeline.LogLevel`. -/
inductive LogLevel
  | LogNone
  | LogFatal
  | LogPanic
  | LogError
  | LogWarning
  | LogInfo
  | LogDebug
  deriving DecidableEq

/-! ## The transfer manager and the source provider -/

/-- The fields of `TransferInfo` read by the two files. -/
structure TransferInfo where
  Source : String
  EntityType : EntityType
  deriving DecidableEq

/-- Modelled from the spec: `TransferInfo.IsFolderPropertiesTransfer` is declared outside
the two source files; it holds for the transfers whose entity kind is the
folder-properties one. -/
def TransferInfo.IsFolderPropertiesTransfer (i : TransferInfo) : Bool :=
  i.EntityType = EntityType.Folder

/-- What `newURLToBlobCopier` asks of its `IJobPartTransferMgr`:
`FromTo().To()`, `BlobTypeOverride()`, `ShouldLog(level)` and `Info()`. -/
structure JobPartTransferMgr where
  To : Location
  BlobTypeOverride : BlobType
  ShouldLog : LogLevel → Bool
  Info : TransferInfo

/-- An `ISourceInfoProvider` value, described by the capabilities of its dynamic type:
`remote` tells whether it implements `IRemoteSourceInfoProvider`, and `blob` is
`some t` when it implements `IBlobSourceInfoProvider` with `BlobType()` returning `t`. -/
structure SourceInfoProvider where
  RawSource : String
  remote : Bool
  blob : Option AzBlobType
  deriving DecidableEq

/-! ## Extension table -/

/-- Modelled from the spec: `inferBlobType` is declared outside the two source files. The
blob type is looked up in a fixed table under the extension of the file name; an
extension without entry, or no extension, gives the default passed in. The table itself
is policy data and stays a parameter. -/
def inferBlobType (table : List (String × AzBlobType)) (filename : String)
    (defaultBlobType : AzBlobType) : AzBlobType :=
  match table.lookup (Ext filename) with
  | some b => b
  | none => defaultBlobType

/-- The one table entry the spec documents: `.vhd` files are page blobs. -/
def documentedTable : List (String × AzBlobType) := [(".vhd", AzBlobType.BlobPageBlob)]

/-! ## Observable effects -/

/-- The texts handed to `LogTransferInfo`, by the format string used. -/
inductive LogMsg
  /-- Line 73, "BlobType has been explicitly set to %q for destination blob." -/
  | explicitlySet (blobTypeOverride : BlobType)
  /-- Line 92, "Autodetected %s blob type as %s." -/
  | autodetected (source : String) (targetBlobType : AzBlobType)
  /-- Line 101, "BlobType %q is set for destination blob." -/
  | isSet (targetBlobType : AzBlobType)
  /-- Line 123, "BlobType %q is used for destination blob by default." -/
  | usedByDefault (blobType : AzBlobType)
  deriving DecidableEq

/-- The calls and outputs of one run that the properties speak about. -/
inductive Event
  /-- Line 44, `url.Parse(destination)`. -/
  | parseDestination (rawURL : String)
  /-- Lines 56-57, the compatibility notice sent to the lifecycle manager. -/
  | notice
  /-- Line 77, `blobSrcInfoProvider.BlobType()`. -/
  | callBlobType
  /-- Line 79, `url.Parse(jptm.Info().Source)`. -/
  | parseSource (rawURL : String)
  /-- Line 88, `inferBlobType(fileName, azblob.BlobBlockBlob)`. -/
  | callInferBlobType (fileName : String)
  /-- A call of `jptm.LogTransferInfo`. -/
  | logTransferInfo (level : LogLevel) (source destination : String) (msg : LogMsg)
  deriving DecidableEq

/-- The sender constructors `newURLToBlobCopier` can end in. -/
inductive SenderCtor
  | newBlobFolderSender
  | newBlobSymlinkSender
  | newURLToBlockBlobCopier
  | newURLToAppendBlobCopier
  | newURLToPageBlobCopier
  deriving DecidableEq

/-- The errors `newURLToBlobCopier` returns itself. -/
inductive CopierError
  /-- Line 46, the error of `url.Parse(destination)` handed on. -/
  | destinationParse (err : URLError)
  /-- Line 83, "Failed to parse URL %s in scheduler. Check sanity." -/
  | sourceParse (source : String)
  deriving DecidableEq

/-- The run-time panics of `newURLToBlobCopier`. There is one: the
`*runtime.TypeAssertionError` of line 38, raised when the dynamic type of `sip` does not
implement `IRemoteSourceInfoProvider`. Its message names that dynamic type and the
missing method; the model keeps the kind of the panic only. -/
inductive Panic
  | typeAssertionError
  deriving DecidableEq

/-- How a call of `newURLToBlobCopier` ends. -/
inductive Outcome
  /-- The call `return ctor(jptm, destination, p, pacer, srcInfoProvider)`. -/
  | sender (ctor : SenderCtor) (destination : String)
  /-- The call `return nil, err`. -/
  | error (err : CopierError)
  /-- A run-time panic. -/
  | panic (p : Panic)
  deriving DecidableEq

/-- Everything observed of one call: the state of the guard `LogBlobConversionOnce`
afterwards, the events in order, the value of the local `targetBlobType` once lines
61-94 have completed (`none` if control never got there), and the outcome. -/
structure Run where
  once : Bool
  trace : List Event
  targetBlobType : Option AzBlobType
  outcome : Outcome
  deriving DecidableEq

/-! ## `newURLToBlobCopier` -/

/-- The method `(*sync.Once).Do`, with `done` the state of the guard: the action runs if
the guard is unset, and the guard is set afterwards. -/
def OnceDo (done : Bool) (action : List Event) : Bool × List Event :=
  if done then (true, []) else (true, action)

/-- Lines 42-59: for a BlobFS destination the URL is rewritten to the blob endpoint and
the notice is sent through the guard; any other destination is left alone. -/
def endpointStage (lib : URLFuns) (once : Bool) (jptm : JobPartTransferMgr)
    (destination : String) : List Event × Except URLError (String × Bool) :=
  if jptm.To = Location.BlobFS then
    match rewriteToBlobEndpoint lib destination with
    | .error err => ([Event.parseDestination destination], .error err)
    | .ok newDest =>
      let r := OnceDo once [Event.notice]
      (Event.parseDestination destination :: r.2, .ok (newDest, r.1))
  else ([], .ok (destination, once))

/-- Lines 91-93: the autodetected type is logged when it is not the default. -/
def autodetectLog (jptm : JobPartTransferMgr) (destination : String)
    (srcInfoProvider : SourceInfoProvider) (targetBlobType : AzBlobType) : List Event :=
  if targetBlobType ≠ AzBlobType.BlobBlockBlob then
    [Event.logTransferInfo LogLevel.LogInfo srcInfoProvider.RawSource destination
      (LogMsg.autodetected jptm.Info.Source targetBlobType)]
  else []

/-- Lines 61-94: the blob type of the destination. An explicit override is converted;
otherwise the source's own blob type is taken if it has one, and else the type is
inferred from the path of the parsed source URL. -/
def resolveTargetBlobType (lib : URLFuns) (table : List (String × AzBlobType))
    (jptm : JobPartTransferMgr) (destination : String)
    (srcInfoProvider : SourceInfoProvider) : List Event × Except CopierError AzBlobType :=
  let blobTypeOverride := jptm.BlobTypeOverride
  if blobTypeOverride ≠ BlobType.Detect then
    let targetBlobType := blobTypeOverride.ToAzBlobType
    (if jptm.ShouldLog LogLevel.LogInfo then
        [Event.logTransferInfo LogLevel.LogInfo srcInfoProvider.RawSource destination
          (LogMsg.explicitlySet blobTypeOverride)]
      else [],
     .ok targetBlobType)
  else
    match srcInfoProvider.blob with
    | some sourceBlobType =>
      let targetBlobType := sourceBlobType
      (Event.callBlobType :: autodetectLog jptm destination srcInfoProvider targetBlobType,
       .ok targetBlobType)
    | none =>
      match lib.Parse jptm.Info.Source with
      | .error _ =>
        ([Event.parseSource jptm.Info.Source], .error (CopierError.sourceParse jptm.Info.Source))
      | .ok srcURL =>
        let fileName := srcURL.Path
        let targetBlobType := inferBlobType table fileName AzBlobType.BlobBlockBlob
        (Event.parseSource jptm.Info.Source :: Event.callInferBlobType fileName ::
          autodetectLog jptm destination srcInfoProvider targetBlobType,
         .ok targetBlobType)

/-- Lines 96-102: the debug line naming the blob type. -/
def debugLog (jptm : JobPartTransferMgr) (destination : String)
    (srcInfoProvider : SourceInfoProvider) (targetBlobType : AzBlobType) : List Event :=
  if jptm.ShouldLog LogLevel.LogDebug then
    [Event.logTransferInfo LogLevel.LogDebug srcInfoProvider.RawSource destination
      (LogMsg.isSet targetBlobType)]
  else []

/-- Lines 104-126: the sender is chosen, by entity kind first and by blob type next. -/
def selectSender (jptm : JobPartTransferMgr) (destination : String)
    (srcInfoProvider : SourceInfoProvider) (targetBlobType : AzBlobType) :
    List Event × Outcome :=
  if jptm.Info.IsFolderPropertiesTransfer then
    ([], Outcome.sender SenderCtor.newBlobFolderSender destination)
  else if jptm.Info.EntityType = EntityType.Symlink then
    ([], Outcome.sender SenderCtor.newBlobSymlinkSender destination)
  else
    match targetBlobType with
    | .BlobBlockBlob => ([], Outcome.sender SenderCtor.newURLToBlockBlobCopier destination)
    | .BlobAppendBlob => ([], Outcome.sender SenderCtor.newURLToAppendBlobCopier destination)
    | .BlobPageBlob => ([], Outcome.sender SenderCtor.newURLToPageBlobCopier destination)
    | _ =>
      (if jptm.ShouldLog LogLevel.LogDebug then
          [Event.logTransferInfo LogLevel.LogDebug srcInfoProvider.RawSource destination
            (LogMsg.usedByDefault AzBlobType.BlobBlockBlob)]
        else [],
       Outcome.sender SenderCtor.newURLToBlockBlobCopier destination)

/-- The function `newURLToBlobCopier`. `once` is the state of `LogBlobConversionOnce`
when the call starts; the pipeline and the pacer are only handed on to the sender
constructor and are left out. -/
def newURLToBlobCopier (lib : URLFuns) (table : List (String × AzBlobType)) (once : Bool)
    (jptm : JobPartTransferMgr) (destination : String) (sip : SourceInfoProvider) : Run :=
  if sip.remote = false then
    { once := once, trace := [], targetBlobType := none,
      outcome := Outcome.panic Panic.typeAssertionError }
  else
    let srcInfoProvider := sip
    match endpointStage lib once jptm destination with
    | (t1, .error err) =>
      { once := once, trace := t1, targetBlobType := none,
        outcome := Outcome.error (CopierError.destinationParse err) }
    | (t1, .ok (destination, once)) =>
      match resolveTargetBlobType lib table jptm destination srcInfoProvider with
      | (t2, .error err) =>
        { once := once, trace := t1 ++ t2, targetBlobType := none,
          outcome := Outcome.error err }
      | (t2, .ok targetBlobType) =>
        let t3 := debugLog jptm destination srcInfoProvider targetBlobType
        let r := selectSender jptm destination srcInfoProvider targetBlobType
        { once := once, trace := t1 ++ t2 ++ t3 ++ r.1,
          targetBlobType := some targetBlobType, outcome := r.2 }

/-- The variable `LogBlobConversionOnce` as declared on line 34: a fresh guard, unset. -/
def LogBlobConversionOnce : Bool := false

/-- One transfer handed to `newURLToBlobCopier`. -/
structure Transfer where
  jptm : JobPartTransferMgr
  destination : String
  sip : SourceInfoProvider

/-- A run of the process: the transfers are resolved one after the other, each call
starting from the guard state the previous one left. A panic ends the process. The
result is the final guard state and the events of the whole run. -/
def runTransfers (lib : URLFuns) (table : List (String × AzBlobType)) :
    Bool → List Transfer → Bool × List Event
  | once, [] => (once, [])
  | once, t :: rest =>
    let r := newURLToBlobCopier lib table once t.jptm t.destination t.sip
    match r.outcome with
    | Outcome.panic _ => (r.once, r.trace)
    | _ =>
      let r' := runTransfers lib table r.once rest
      (r'.1, r.trace ++ r'.2)

/-- Number of times the compatibility notice was sent. -/
def noticeCount (trace : List Event) : Nat := trace.count Event.notice

/-- Number of calls of the source's `BlobType()`. -/
def blobTypeCalls (trace : List Event) : Nat := trace.count Event.callBlobType

/-- Number of parses of the source URL. -/
def parseSourceCalls (trace : List Event) : Nat :=
  (trace.filter fun e => match e with
    | Event.parseSource _ => true
    | _ => false).length

/-- Number of calls of `inferBlobType`. -/
def inferBlobTypeCalls (trace : List Event) : Nat :=
  (trace.filter fun e => match e with
    | Event.callInferBlobType _ => true
    | _ => false).length

/-! ## `localFileSourceInfoProvider.GetSDDL` -/

/-- A Go result that may also be a panic. -/
inductive GoResult (α ε : Type)
  | ok (value : α)
  | err (e : ε)
  | panic (msg : String)
  deriving DecidableEq

/-- The `sddl` package as used by `GetSDDL`; `P` is the parsed descriptor type
`sddl.SDDLString`, and a binary descriptor is a list of bytes. -/
structure SDDLFuns (P : Type) where
  DACL_SECURITY_INFORMATION : Nat
  OWNER_SECURITY_INFORMATION : Nat
  GROUP_SECURITY_INFORMATION : Nat
  /-- The function `sddl.QuerySecurityObject`, the descriptor fetch. -/
  QuerySecurityObject : String → Nat → Except String (List Nat)
  /-- The function `sddl.SecurityDescriptorToString`. -/
  SecurityDescriptorToString : List Nat → Except String String
  /-- The function `sddl.ParseSDDL`. -/
  ParseSDDL : String → Except String P
  /-- The method `SDDLString.String`. -/
  SDDLString : P → String
  /-- The method `SDDLString.PortableString`. -/
  PortableString : P → String

/-- The errors `GetSDDL` returns. -/
inductive SDDLError
  /-- Lines 26-27, "sddl.QuerySecurityObject(%s, 0x%x) failed: %w". -/
  | queryFailed (source : String) (flags : Nat) (err : String)
  /-- Line 40, "sddl.ParseSDDL(%s) failed: %w". -/
  | parseFailed (sdStr : String) (err : String)
  deriving DecidableEq

/-- The Linux `localFileSourceInfoProvider`; only its `jptm` is used. -/
structure localFileSourceInfoProvider where
  jptm : JobPartTransferMgr

/-- The method `localFileSourceInfoProvider.GetSDDL`. -/
def localFileSourceInfoProvider.GetSDDL {P : Type} (lib : SDDLFuns P)
    (f : localFileSourceInfoProvider) : GoResult String SDDLError :=
  let securityInfoFlags :=
    lib.DACL_SECURITY_INFORMATION ||| lib.OWNER_SECURITY_INFORMATION |||
      lib.GROUP_SECURITY_INFORMATION
  match lib.QuerySecurityObject f.jptm.Info.Source securityInfoFlags with
  | .error err => GoResult.err (SDDLError.queryFailed f.jptm.Info.Source securityInfoFlags err)
  | .ok sd =>
    match lib.SecurityDescriptorToString sd with
    | .error _ =>
      GoResult.panic "Cannot parse binary Security Descriptor returned by QuerySecurityObject"
    | .ok sdStr =>
      match lib.ParseSDDL sdStr with
      | .error err => GoResult.err (SDDLError.parseFailed sdStr err)
      | .ok fSDDL =>
        if TrimSpace (lib.SDDLString fSDDL) ≠ TrimSpace sdStr then
          GoResult.panic "SDDL sanity check failed (parsed string output != original string)"
        else GoResult.ok (lib.PortableString fSDDL)

/-! ## A small URL library for evaluating examples

The functions below follow `net/url` and `azblob` on URLs of the shape
`scheme://host/container/blob`, with a lower-case scheme and without query, fragment,
user info, port, percent escape or IP-style host, and on strings holding an ASCII
control character, which `url.Parse` rejects. Outside that shape they are not a model of
the Go functions: a query would stay in the path and a percent escape would be neither
checked nor decoded. They serve to run the model on concrete inputs of that shape; the
general statements hold for every library. -/

namespace SimpleURL

/-- Go's `stringContainsCTLByte`, per character. -/
def isCTL (c : Char) : Bool := c.toNat < 0x20 || c.toNat = 0x7F

/-- Splits `scheme://rest` at the first `://`; `acc` holds the scheme read so far,
reversed. -/
def cutScheme : List Char → List Char → Option (List Char × List Char)
  | [], _ => none
  | c :: cs, acc =>
    if [':', '/', '/'].isPrefixOf (c :: cs) then some (acc.reverse, cs.drop 2)
    else cutScheme cs (c :: acc)

/-- The function `url.Parse` on the strings described above. -/
def Parse (rawURL : String) : Except URLError URL :=
  if rawURL.data.any isCTL then
    .error { Op := "parse", URL := rawURL, Err := "net/url: invalid control character in URL" }
  else
    match cutScheme rawURL.data [] with
    | some (scheme, rest) =>
      .ok { Scheme := ⟨scheme⟩, Host := ⟨rest.takeWhile (· ≠ '/')⟩,
            Path := ⟨rest.dropWhile (· ≠ '/')⟩, RawQuery := "" }
    | none => .ok { Scheme := "", Host := "", Path := rawURL, RawQuery := "" }

/-- The method `(*url.URL).String` on the URLs described above. -/
def URLString (u : URL) : String :=
  if u.Scheme = "" ∧ u.Host = "" then u.Path
  else if u.Scheme = "" then "//" ++ u.Host ++ u.Path
  else u.Scheme ++ "://" ++ u.Host ++ u.Path

/-- The function `azblob.NewBlobURLParts`: scheme and host are copied, and the path,
without its leading slash, is cut at the first slash into container and blob name. -/
def NewBlobURLParts (u : URL) : BlobURLParts :=
  let path := match u.Path.data with
    | '/' :: rest => rest
    | p => p
  { Scheme := u.Scheme, Host := u.Host,
    ContainerName := ⟨path.takeWhile (· ≠ '/')⟩,
    BlobName := ⟨(path.dropWhile (· ≠ '/')).drop 1⟩,
    Snapshot := "", SAS := "", UnparsedParams := u.RawQuery, VersionID := "" }

/-- The method `azblob.BlobURLParts.URL`. -/
def PartsURL (up : BlobURLParts) : URL :=
  let path :=
    if up.ContainerName ≠ "" then
      "/" ++ up.ContainerName ++ (if up.BlobName ≠ "" then "/" ++ up.BlobName else "")
    else ""
  { Scheme := up.Scheme, Host := up.Host, Path := path, RawQuery := up.UnparsedParams }

/-- The four functions together. -/
def lib : URLFuns :=
  { Parse := Parse, URLString := URLString, NewBlobURLParts := NewBlobURLParts,
    PartsURL := PartsURL }

end SimpleURL

/-- The parts that line 52 renders: those of the parsed URL with the host rewritten. -/
def rewrittenParts (lib : URLFuns) (u : URL) : BlobURLParts :=
  { lib.NewBlobURLParts u with Host := replaceHost (lib.NewBlobURLParts u).Host }

/-! ## Predicates used to state the properties -/

/-- Whether `url.Parse` accepts the string. -/
def parses (lib : URLFuns) (rawURL : String) : Bool :=
  match lib.Parse rawURL with
  | .ok _ => true
  | .error _ => false

/-- Whether a call gets as far as line 61: the provider passes the type assertion of
line 38, and the destination, if it is a BlobFS one, parses. -/
def reachesResolution (lib : URLFuns) (jptm : JobPartTransferMgr) (destination : String)
    (sip : SourceInfoProvider) : Bool :=
  sip.remote && (decide (jptm.To ≠ Location.BlobFS) || parses lib destination)

/-- Whether the blob-type resolution of lines 61-94 runs to its end when started: it does
unless the type has to be inferred and the source URL fails to parse. -/
def resolutionCompletes (lib : URLFuns) (jptm : JobPartTransferMgr)
    (sip : SourceInfoProvider) : Bool :=
  decide (jptm.BlobTypeOverride ≠ BlobType.Detect) || sip.blob.isSome ||
    parses lib jptm.Info.Source

/-- The three blob types a destination blob can have. -/
def AzBlobType.isConcrete : AzBlobType → Bool
  | .BlobNone => false
  | _ => true

/-- Whether a transfer triggers the endpoint rewrite and so reaches the guard of line 55:
the provider passes line 38, the destination is a BlobFS one and it parses. -/
def triggersRewrite (lib : URLFuns) (t : Transfer) : Bool :=
  t.sip.remote && decide (t.jptm.To = Location.BlobFS) && parses lib t.destination

/-- The sender constructor for an entity kind other than a file. -/
def entitySender : EntityType → SenderCtor
  | .Folder => SenderCtor.newBlobFolderSender
  | .Symlink => SenderCtor.newBlobSymlinkSender
  | .File => SenderCtor.newURLToBlockBlobCopier

/-! ## Inputs for the examples -/

namespace Examples

/-- A transfer manager that logs nothing. -/
def jptm (dest : Location) (blobTypeOverride : BlobType) (source : String)
    (entityType : EntityType) : JobPartTransferMgr :=
  { To := dest, BlobTypeOverride := blobTypeOverride, ShouldLog := fun _ => false,
    Info := { Source := source, EntityType := entityType } }

/-- A remote source without a native blob type, a file share for instance. -/
def fileShareSource (rawSource : String) : SourceInfoProvider :=
  { RawSource := rawSource, remote := true, blob := none }

/-- A blob source whose `BlobType()` returns `t`. -/
def blobSource (rawSource : String) (t : AzBlobType) : SourceInfoProvider :=
  { RawSource := rawSource, remote := true, blob := some t }

/-- A local source: an `ISourceInfoProvider` that is not a remote one. -/
def localSource (rawSource : String) : SourceInfoProvider :=
  { RawSource := rawSource, remote := false, blob := none }

/-- A blob destination. -/
def blobDestination : String := "https://acct.blob.core.windows.net/c/file.vhd"

/-- A dfs destination. -/
def dfsDestination : String := "https://acct.dfs.core.windows.net/c/dir/file.bin"

/-- A source URL that `url.Parse` rejects: it holds a tab character. -/
def badSource : String := "https://files.example/share/dir\t1"

/-- A descriptor library whose texts parse and print back as they are. -/
def sddlFaithful : SDDLFuns String :=
  { DACL_SECURITY_INFORMATION := 4, OWNER_SECURITY_INFORMATION := 1,
    GROUP_SECURITY_INFORMATION := 2,
    QuerySecurityObject := fun _ _ => .ok [1, 0, 4, 128],
    SecurityDescriptorToString := fun _ => .ok "O:BAG:BAD:(A;;FA;;;BA) ",
    ParseSDDL := fun s => .ok (TrimSpace s),
    SDDLString := fun p => p,
    PortableString := fun p => p }

/-- A descriptor library whose parser rejects the text the translator produced. -/
def sddlParseFails : SDDLFuns String :=
  { sddlFaithful with ParseSDDL := fun _ => .error "invalid SDDL" }

/-- A descriptor library whose parsed descriptor prints back differently. -/
def sddlMismatch : SDDLFuns String :=
  { sddlFaithful with SDDLString := fun _ => "O:BAG:BAD:" }

/-- A local file provider. -/
def localFile : localFileSourceInfoProvider :=
  { jptm := jptm Location.File BlobType.Detect "/mnt/share/a.txt" EntityType.File }

end Examples

/-! ## The endpoint rewrite -/

/-- Without an occurrence of `old`, `strings.Replace` returns its argument. -/
theorem replaceFirst_eq_self (old new : List Char) :
    ∀ s : List Char, occurrences old s = 0 → replaceFirst old new s = s := by
  intro s
  induction s with
  | nil =>
    intro h
    by_cases hp : old.isPrefixOf [] = true
    · simp [occurrences, hp] at h
    · simp [replaceFirst, hp]
  | cons c cs ih =>
    intro h
    by_cases hp : old.isPrefixOf (c :: cs) = true
    · simp [occurrences, hp] at h
    · have h0 : occurrences old cs = 0 := by
        simp [occurrences, hp] at h
        exact h
      simp [replaceFirst, hp, ih h0]

/-- The result of the host rewrite never starts with the `.dfs` marker. -/
theorem dfsMarker_not_head (s : List Char) :
    dfsMarker.isPrefixOf (replaceFirst dfsMarker blobMarker s) = false := by
  rcases s with _ | ⟨a, _ | ⟨b, _ | ⟨c, _ | ⟨d, rest⟩⟩⟩⟩ <;>
    simp only [replaceFirst, dfsMarker, blobMarker, List.isPrefixOf] <;>
    (repeat' split) <;>
    first
      | (simp_all [List.isPrefixOf]; done)
      | (simp_all [List.isPrefixOf]; assumption)

/-- A host with at most one `.dfs` marker has none left after the rewrite. -/
theorem occurrences_replaceFirst :
    ∀ s : List Char, occurrences dfsMarker s ≤ 1 →
      occurrences dfsMarker (replaceFirst dfsMarker blobMarker s) = 0 := by
  intro s
  induction s with
  | nil => intro _; simp [replaceFirst, occurrences, dfsMarker, List.isPrefixOf]
  | cons c cs ih =>
    intro h
    by_cases hp : dfsMarker.isPrefixOf (c :: cs) = true
    · have hrest : occurrences dfsMarker cs = 0 := by
        simp only [occurrences, hp, if_true] at h
        omega
      obtain ⟨rest, hs⟩ : ∃ rest, c :: cs = '.' :: 'd' :: 'f' :: 's' :: rest := by
        rcases cs with _ | ⟨b, _ | ⟨c', _ | ⟨d, rest⟩⟩⟩ <;>
          simp [dfsMarker, List.isPrefixOf] at hp
        obtain ⟨h1, h2, h3, h4⟩ := hp
        subst h1 h2 h3 h4
        exact ⟨rest, rfl⟩
      have hc : c = '.' := by injection hs
      have hcs : cs = 'd' :: 'f' :: 's' :: rest := by injection hs
      subst hc
      subst hcs
      have hr : occurrences dfsMarker rest = 0 := by
        simp [occurrences, dfsMarker, List.isPrefixOf] at hrest
        simpa [dfsMarker] using hrest
      simp [replaceFirst, occurrences, dfsMarker, blobMarker, List.isPrefixOf]
      simpa [dfsMarker] using hr
    · have hcs : occurrences dfsMarker cs ≤ 1 := by
        simp [occurrences, hp] at h
        exact h
      have hhead := dfsMarker_not_head (c :: cs)
      simp [replaceFirst, hp] at hhead
      simp [replaceFirst, hp, occurrences, ih hcs]
      intro hpre
      have := List.isPrefixOf_iff_prefix.mpr hpre
      simp [hhead] at this

/-- The host rewrite of line 51 is idempotent on hosts with at most one `.dfs` marker. -/
theorem replaceHost_idem (host : String) (h : occurrences dfsMarker host.data ≤ 1) :
    replaceHost (replaceHost host) = replaceHost host := by
  simp only [replaceHost]
  rw [replaceFirst_eq_self _ _ _ (occurrences_replaceFirst _ h)]

/-- The rewrite of a destination that parses, spelled out. -/
theorem rewriteToBlobEndpoint_ok (lib : URLFuns) (d : String) (u : URL)
    (hparse : lib.Parse d = .ok u) :
    rewriteToBlobEndpoint lib d = .ok (lib.URLString (lib.PartsURL (rewrittenParts lib u))) := by
  simp [rewriteToBlobEndpoint, hparse, rewrittenParts]

/-- The parts of an already rewritten URL are left as they are by a second rewrite,
when the host held the marker at most once. -/
theorem rewrittenParts_idem (lib : URLFuns) (u u' : URL)
    (honce : occurrences dfsMarker (lib.NewBlobURLParts u).Host.data ≤ 1)
    (hparts : lib.NewBlobURLParts u' = rewrittenParts lib u) :
    rewrittenParts lib u' = rewrittenParts lib u := by
  have hidem := replaceHost_idem _ honce
  simp only [rewrittenParts] at hparts ⊢
  rw [hparts]
  simp [hidem]

/-! ## Claims about the endpoint rewrite -/

/-- C4, as amended: for a destination that parses, whose host holds the `.dfs` marker at
most once, and whose rewritten form is read back by the URL library as the parts it was
rendered from, rewriting the rewritten URL returns it unchanged and without error. -/
theorem rewriteToBlobEndpoint_idempotent (lib : URLFuns) (d : String) (u : URL)
    (hparse : lib.Parse d = .ok u)
    (honce : occurrences dfsMarker (lib.NewBlobURLParts u).Host.data ≤ 1)
    (hround : ∃ u', lib.Parse (lib.URLString (lib.PartsURL (rewrittenParts lib u))) = .ok u' ∧
      lib.NewBlobURLParts u' = rewrittenParts lib u) :
    ∃ n, rewriteToBlobEndpoint lib d = .ok n ∧ rewriteToBlobEndpoint lib n = .ok n := by
  obtain ⟨u', hp', hparts⟩ := hround
  refine ⟨_, rewriteToBlobEndpoint_ok lib d u hparse, ?_⟩
  rw [rewriteToBlobEndpoint_ok lib _ u' hp', rewrittenParts_idem lib u u' honce hparts]

/-- Witness for C4: a dfs destination with one marker; the second rewrite is a no-op. -/
theorem rewriteToBlobEndpoint_idempotent_witness :
    ∃ n, rewriteToBlobEndpoint SimpleURL.lib "https://acct.dfs.core.windows.net/c/b" = .ok n ∧
      rewriteToBlobEndpoint SimpleURL.lib n = .ok n :=
  rewriteToBlobEndpoint_idempotent SimpleURL.lib "https://acct.dfs.core.windows.net/c/b"
    { Scheme := "https", Host := "acct.dfs.core.windows.net", Path := "/c/b", RawQuery := "" }
    rfl (by decide)
    ⟨{ Scheme := "https", Host := "acct.blob.core.windows.net", Path := "/c/b", RawQuery := "" },
      rfl, rfl⟩

/-- C4, counterexample: a host holding the marker twice. The first rewrite yields
`acct.blob.dfs...`, a second one `acct.blob.blob...`, so the rewrite of the rewritten
URL differs from it. -/
theorem rewriteToBlobEndpoint_not_idempotent :
    rewriteToBlobEndpoint SimpleURL.lib "https://acct.dfs.dfs.core.windows.net/c/b"
      = .ok "https://acct.blob.dfs.core.windows.net/c/b" ∧
    rewriteToBlobEndpoint SimpleURL.lib "https://acct.blob.dfs.core.windows.net/c/b"
      = .ok "https://acct.blob.blob.core.windows.net/c/b" ∧
    replaceHost (replaceHost "acct.dfs.dfs.core.windows.net")
      ≠ replaceHost "acct.dfs.dfs.core.windows.net" :=
  ⟨rfl, rfl, by decide⟩

/-! ## Claims about blob-type resolution -/

/-- C5: with an override other than `Detect`, the resolved blob type is the override
converted by `ToAzBlobType`, for every source provider, native blob type and source URL
(so in every call that gets as far as the resolution); `BlobType()` and `inferBlobType`
are not called, nor is the source URL parsed. -/
theorem override_wins (lib : URLFuns) (table : List (String × AzBlobType)) (once : Bool)
    (jptm : JobPartTransferMgr) (destination : String) (sip : SourceInfoProvider)
    (hov : jptm.BlobTypeOverride ≠ BlobType.Detect) :
    (newURLToBlobCopier lib table once jptm destination sip).targetBlobType
      = (if reachesResolution lib jptm destination sip
          then some jptm.BlobTypeOverride.ToAzBlobType else none) ∧
    blobTypeCalls (newURLToBlobCopier lib table once jptm destination sip).trace = 0 ∧
    inferBlobTypeCalls (newURLToBlobCopier lib table once jptm destination sip).trace = 0 ∧
    parseSourceCalls (newURLToBlobCopier lib table once jptm destination sip).trace = 0 := by
  unfold newURLToBlobCopier endpointStage resolveTargetBlobType reachesResolution parses
    rewriteToBlobEndpoint OnceDo debugLog selectSender
  cases hr : sip.remote <;> by_cases hto : jptm.To = Location.BlobFS <;>
    cases hp : lib.Parse destination <;> cases once <;>
    simp [hov, hto, blobTypeCalls, inferBlobTypeCalls, parseSourceCalls] <;>
    (repeat' split) <;> simp_all

/-- Witness for C5: a page-blob override on a block-blob source. -/
theorem override_wins_witness :
    (Examples.jptm Location.Blob BlobType.PageBlob "https://a.example/c/x.txt"
        EntityType.File).BlobTypeOverride ≠ BlobType.Detect ∧
    (newURLToBlobCopier SimpleURL.lib documentedTable false
        (Examples.jptm Location.Blob BlobType.PageBlob "https://a.example/c/x.txt"
          EntityType.File)
        Examples.blobDestination
        (Examples.blobSource "https://a.example/c/x.txt" AzBlobType.BlobBlockBlob)).targetBlobType
      = some AzBlobType.BlobPageBlob :=
  ⟨by decide,
   (override_wins SimpleURL.lib documentedTable false
      (Examples.jptm Location.Blob BlobType.PageBlob "https://a.example/c/x.txt"
        EntityType.File)
      Examples.blobDestination
      (Examples.blobSource "https://a.example/c/x.txt" AzBlobType.BlobBlockBlob)
      (by decide)).1⟩

/-- C6: under `Detect`, a source that has a native blob type gives it to the destination
unchanged (in every call that gets as far as the resolution); `BlobType()` is called
once there, the source URL is not parsed and `inferBlobType` is not called. -/
theorem native_blob_type_verbatim (lib : URLFuns) (table : List (String × AzBlobType))
    (once : Bool) (jptm : JobPartTransferMgr) (destination : String)
    (sip : SourceInfoProvider) (t : AzBlobType)
    (hov : jptm.BlobTypeOverride = BlobType.Detect) (hblob : sip.blob = some t) :
    (newURLToBlobCopier lib table once jptm destination sip).targetBlobType
      = (if reachesResolution lib jptm destination sip then some t else none) ∧
    blobTypeCalls (newURLToBlobCopier lib table once jptm destination sip).trace
      = (if reachesResolution lib jptm destination sip then 1 else 0) ∧
    parseSourceCalls (newURLToBlobCopier lib table once jptm destination sip).trace = 0 ∧
    inferBlobTypeCalls (newURLToBlobCopier lib table once jptm destination sip).trace = 0 := by
  unfold newURLToBlobCopier endpointStage resolveTargetBlobType reachesResolution parses
    rewriteToBlobEndpoint OnceDo debugLog selectSender autodetectLog
  cases hr : sip.remote <;> by_cases hto : jptm.To = Location.BlobFS <;>
    cases hp : lib.Parse destination <;> cases once <;>
    simp [hov, hblob, hto, blobTypeCalls, inferBlobTypeCalls, parseSourceCalls] <;>
    (repeat' split) <;> simp_all

/-- Witness for C6: an append-blob source copied under `Detect`. -/
theorem native_blob_type_verbatim_witness :
    (newURLToBlobCopier SimpleURL.lib documentedTable false
        (Examples.jptm Location.Blob BlobType.Detect "https://a.example/c/x.vhd"
          EntityType.File)
        Examples.blobDestination
        (Examples.blobSource "https://a.example/c/x.vhd" AzBlobType.BlobAppendBlob)).targetBlobType
      = some AzBlobType.BlobAppendBlob :=
  (native_blob_type_verbatim SimpleURL.lib documentedTable false
      (Examples.jptm Location.Blob BlobType.Detect "https://a.example/c/x.vhd"
        EntityType.File)
      Examples.blobDestination
      (Examples.blobSource "https://a.example/c/x.vhd" AzBlobType.BlobAppendBlob)
      AzBlobType.BlobAppendBlob rfl rfl).1

/-- C2, counterexample: the source is `file.txt` and the destination is named
`file.vhd`. The extension table gives `PageBlob` for the destination name, but the
resolved type is `BlockBlob`: it is the source path that is looked up. -/
theorem inference_ignores_destination_name :
    inferBlobType documentedTable "file.vhd" AzBlobType.BlobBlockBlob
      = AzBlobType.BlobPageBlob ∧
    inferBlobType documentedTable Examples.blobDestination AzBlobType.BlobBlockBlob
      = AzBlobType.BlobPageBlob ∧
    (newURLToBlobCopier SimpleURL.lib documentedTable false
        (Examples.jptm Location.Blob BlobType.Detect "https://files.example/share/file.txt"
          EntityType.File)
        Examples.blobDestination
        (Examples.fileShareSource "https://files.example/share/file.txt")).targetBlobType
      = some AzBlobType.BlobBlockBlob := by
  decide

/-- C2, as amended: under `Detect`, for a source without a native blob type, the
resolved blob type is the one `inferBlobType` gives, with default `BlockBlob`, for the
path of the parsed source URL, whatever the destination is named; with the documented
table a file name `file.vhd` gives `PageBlob`, and `file.txt` and `archive` give
`BlockBlob`. -/
theorem inference_from_source_path (lib : URLFuns) (table : List (String × AzBlobType))
    (once : Bool) (jptm : JobPartTransferMgr) (destination : String)
    (sip : SourceInfoProvider) (srcURL : URL)
    (hov : jptm.BlobTypeOverride = BlobType.Detect) (hblob : sip.blob = none)
    (hreach : reachesResolution lib jptm destination sip = true)
    (hsrc : lib.Parse jptm.Info.Source = .ok srcURL) :
    (newURLToBlobCopier lib table once jptm destination sip).targetBlobType
      = some (inferBlobType table srcURL.Path AzBlobType.BlobBlockBlob) ∧
    inferBlobType documentedTable "file.vhd" AzBlobType.BlobBlockBlob
      = AzBlobType.BlobPageBlob ∧
    inferBlobType documentedTable "file.txt" AzBlobType.BlobBlockBlob
      = AzBlobType.BlobBlockBlob ∧
    inferBlobType documentedTable "archive" AzBlobType.BlobBlockBlob
      = AzBlobType.BlobBlockBlob := by
  refine ⟨?_, by decide, by decide, by decide⟩
  revert hreach
  unfold newURLToBlobCopier endpointStage resolveTargetBlobType reachesResolution parses
    rewriteToBlobEndpoint OnceDo debugLog selectSender autodetectLog
  cases hr : sip.remote <;> by_cases hto : jptm.To = Location.BlobFS <;>
    cases hp : lib.Parse destination <;> cases once <;>
    simp [hov, hblob, hto, hsrc]

/-- Witness for C2: a `.vhd` file of a file share copied to a destination named `.txt`
becomes a page blob. -/
theorem inference_from_source_path_witness :
    (newURLToBlobCopier SimpleURL.lib documentedTable false
        (Examples.jptm Location.Blob BlobType.Detect "https://files.example/share/file.vhd"
          EntityType.File)
        "https://acct.blob.core.windows.net/c/file.txt"
        (Examples.fileShareSource "https://files.example/share/file.vhd")).targetBlobType
      = some AzBlobType.BlobPageBlob :=
  (inference_from_source_path SimpleURL.lib documentedTable false
      (Examples.jptm Location.Blob BlobType.Detect "https://files.example/share/file.vhd"
        EntityType.File)
      "https://acct.blob.core.windows.net/c/file.txt"
      (Examples.fileShareSource "https://files.example/share/file.vhd")
      { Scheme := "https", Host := "files.example", Path := "/share/file.vhd", RawQuery := "" }
      rfl rfl rfl rfl).1

/-- An entry found by `lookup` is an entry of the table. -/
theorem mem_of_lookup (table : List (String × AzBlobType)) (k : String) (b : AzBlobType) :
    table.lookup k = some b → (k, b) ∈ table := by
  induction table with
  | nil => intro h; simp at h
  | cons e rest ih =>
    obtain ⟨k', b'⟩ := e
    intro h
    by_cases hk : k = k'
    · subst hk
      simp [List.lookup] at h
      simp [h]
    · have hne : (k == k') = false := by simpa using hk
      simp [List.lookup, hne] at h
      exact List.mem_cons_of_mem _ (ih h)

/-- With a table of concrete blob types and a concrete default, the inferred type is
concrete. -/
theorem inferBlobType_isConcrete (table : List (String × AzBlobType)) (filename : String)
    (defaultBlobType : AzBlobType) (htable : ∀ e ∈ table, e.2.isConcrete = true)
    (hdef : defaultBlobType.isConcrete = true) :
    (inferBlobType table filename defaultBlobType).isConcrete = true := by
  unfold inferBlobType
  cases h : table.lookup (Ext filename) with
  | none => simpa using hdef
  | some b => simpa using htable _ (mem_of_lookup table _ b h)

/-- C7, counterexample: under `Detect`, a blob source whose `BlobType()` is the unset
value `BlobNone` resolves to `BlobNone`; the block-blob copier is then chosen by the
default case of the final switch. -/
theorem resolved_may_be_unset :
    (newURLToBlobCopier SimpleURL.lib documentedTable false
        (Examples.jptm Location.Blob BlobType.Detect "https://a.example/c/x" EntityType.File)
        Examples.blobDestination
        (Examples.blobSource "https://a.example/c/x" AzBlobType.BlobNone)).targetBlobType
      = some AzBlobType.BlobNone ∧
    (newURLToBlobCopier SimpleURL.lib documentedTable false
        (Examples.jptm Location.Blob BlobType.Detect "https://a.example/c/x" EntityType.File)
        Examples.blobDestination
        (Examples.blobSource "https://a.example/c/x" AzBlobType.BlobNone)).outcome
      = Outcome.sender SenderCtor.newURLToBlockBlobCopier Examples.blobDestination := by
  decide

/-- C7, as amended: whenever the resolution completes, the resolved blob type is one of
`BlockBlob`, `AppendBlob` and `PageBlob`, provided that what the resolution passes on
under `Detect` is: the `BlobType()` of a blob source and the entries of the extension
table. An explicit override always resolves to one of the three. -/
theorem resolved_is_concrete (lib : URLFuns) (table : List (String × AzBlobType))
    (once : Bool) (jptm : JobPartTransferMgr) (destination : String)
    (sip : SourceInfoProvider) (t : AzBlobType)
    (hres : (newURLToBlobCopier lib table once jptm destination sip).targetBlobType = some t)
    (hsrc : jptm.BlobTypeOverride = BlobType.Detect →
      ∀ s, sip.blob = some s → s.isConcrete = true)
    (htable : ∀ e ∈ table, e.2.isConcrete = true) :
    t = AzBlobType.BlobBlockBlob ∨ t = AzBlobType.BlobAppendBlob ∨
      t = AzBlobType.BlobPageBlob := by
  have hconc : t.isConcrete = true := by
    revert hres
    unfold newURLToBlobCopier endpointStage resolveTargetBlobType
      rewriteToBlobEndpoint OnceDo debugLog selectSender autodetectLog
    by_cases hov : jptm.BlobTypeOverride = BlobType.Detect
    · cases hb : sip.blob with
      | some s =>
        have hs := hsrc hov s hb
        cases hr : sip.remote <;> by_cases hto : jptm.To = Location.BlobFS <;>
          cases hp : lib.Parse destination <;> cases once <;>
          simp [hov, hto, hb] <;> intro h <;> simp_all
      | none =>
        cases hq : lib.Parse jptm.Info.Source with
        | error e =>
          cases hr : sip.remote <;> by_cases hto : jptm.To = Location.BlobFS <;>
            cases hp : lib.Parse destination <;> cases once <;>
            simp [hov, hto, hb, hq]
        | ok srcURL =>
          have hi := inferBlobType_isConcrete table srcURL.Path AzBlobType.BlobBlockBlob
            htable rfl
          cases hr : sip.remote <;> by_cases hto : jptm.To = Location.BlobFS <;>
            cases hp : lib.Parse destination <;> cases once <;>
            simp [hov, hto, hb, hq] <;> intro h <;> simp_all
    · have hc : jptm.BlobTypeOverride.ToAzBlobType.isConcrete = true := by
        cases ho : jptm.BlobTypeOverride <;> simp_all [BlobType.ToAzBlobType,
          AzBlobType.isConcrete]
      cases hr : sip.remote <;> by_cases hto : jptm.To = Location.BlobFS <;>
        cases hp : lib.Parse destination <;> cases once <;>
        simp [hov, hto] <;> intro h <;> simp_all
  cases t <;> simp_all [AzBlobType.isConcrete]

/-- Witness for C7: a `.vhd` source without native blob type resolves to `PageBlob`. -/
theorem resolved_is_concrete_witness :
    (newURLToBlobCopier SimpleURL.lib documentedTable false
        (Examples.jptm Location.Blob BlobType.Detect "https://files.example/share/file.vhd"
          EntityType.File)
        Examples.blobDestination
        (Examples.fileShareSource "https://files.example/share/file.vhd")).targetBlobType
      = some AzBlobType.BlobPageBlob ∧
    (AzBlobType.BlobPageBlob = AzBlobType.BlobBlockBlob ∨
      AzBlobType.BlobPageBlob = AzBlobType.BlobAppendBlob ∨
      AzBlobType.BlobPageBlob = AzBlobType.BlobPageBlob) :=
  ⟨by decide, resolved_is_concrete SimpleURL.lib documentedTable false
    (Examples.jptm Location.Blob BlobType.Detect "https://files.example/share/file.vhd"
      EntityType.File)
    Examples.blobDestination
    (Examples.fileShareSource "https://files.example/share/file.vhd")
    AzBlobType.BlobPageBlob (by decide) (by decide) (by decide)⟩

/-! ## The stages of `newURLToBlobCopier` -/

/-- The calls of `BlobType()` of two traces add up. -/
theorem blobTypeCalls_append (a b : List Event) :
    blobTypeCalls (a ++ b) = blobTypeCalls a + blobTypeCalls b := by
  simp [blobTypeCalls]

/-- The parses of the source URL of two traces add up. -/
theorem parseSourceCalls_append (a b : List Event) :
    parseSourceCalls (a ++ b) = parseSourceCalls a + parseSourceCalls b := by
  simp [parseSourceCalls]

/-- The calls of `inferBlobType` of two traces add up. -/
theorem inferBlobTypeCalls_append (a b : List Event) :
    inferBlobTypeCalls (a ++ b) = inferBlobTypeCalls a + inferBlobTypeCalls b := by
  simp [inferBlobTypeCalls]

/-- The notices of two traces add up. -/
theorem noticeCount_append (a b : List Event) :
    noticeCount (a ++ b) = noticeCount a + noticeCount b := by
  simp [noticeCount]

/-- The endpoint stage fails only on a BlobFS destination that does not parse, and
leaves the guard alone then. -/
theorem endpointStage_error (lib : URLFuns) (once : Bool) (jptm : JobPartTransferMgr)
    (d : String) (t1 : List Event) (e : URLError)
    (h : endpointStage lib once jptm d = (t1, .error e)) :
    jptm.To = Location.BlobFS ∧ parses lib d = false ∧ noticeCount t1 = 0 := by
  revert h
  unfold endpointStage rewriteToBlobEndpoint parses OnceDo
  by_cases hto : jptm.To = Location.BlobFS <;> cases hp : lib.Parse d <;>
    simp [hto, noticeCount]
  intro h1 _
  subst h1
  simp

/-- The endpoint stage, when it succeeds: which destinations get there, what it calls,
and what it does to the guard. -/
theorem endpointStage_ok (lib : URLFuns) (once : Bool) (jptm : JobPartTransferMgr)
    (d : String) (t1 : List Event) (d' : String) (once' : Bool)
    (h : endpointStage lib once jptm d = (t1, .ok (d', once'))) :
    (decide (jptm.To ≠ Location.BlobFS) || parses lib d) = true ∧
    blobTypeCalls t1 = 0 ∧ parseSourceCalls t1 = 0 ∧ inferBlobTypeCalls t1 = 0 ∧
    noticeCount t1 = (if jptm.To = Location.BlobFS ∧ once = false then 1 else 0) ∧
    once' = (once || decide (jptm.To = Location.BlobFS)) := by
  revert h
  unfold endpointStage rewriteToBlobEndpoint parses OnceDo
  by_cases hto : jptm.To = Location.BlobFS <;> cases hp : lib.Parse d <;> cases once <;>
    simp [hto] <;> intros <;> subst_vars <;>
    simp [noticeCount, blobTypeCalls, parseSourceCalls, inferBlobTypeCalls]

/-- The resolution stage sends no notice. -/
theorem resolveTargetBlobType_notice (lib : URLFuns) (table : List (String × AzBlobType))
    (jptm : JobPartTransferMgr) (d : String) (sip : SourceInfoProvider) :
    noticeCount (resolveTargetBlobType lib table jptm d sip).1 = 0 := by
  unfold resolveTargetBlobType autodetectLog noticeCount
  by_cases hov : jptm.BlobTypeOverride = BlobType.Detect <;> cases hb : sip.blob <;>
    cases hq : lib.Parse jptm.Info.Source <;> simp [hov] <;> (repeat' split) <;> simp

/-- The resolution stage fails exactly when it does not complete, with the error of
line 83. -/
theorem resolveTargetBlobType_error (lib : URLFuns) (table : List (String × AzBlobType))
    (jptm : JobPartTransferMgr) (d : String) (sip : SourceInfoProvider)
    (t2 : List Event) (e : CopierError)
    (h : resolveTargetBlobType lib table jptm d sip = (t2, .error e)) :
    resolutionCompletes lib jptm sip = false ∧ sip.blob = none ∧
      e = CopierError.sourceParse jptm.Info.Source := by
  revert h
  unfold resolveTargetBlobType resolutionCompletes parses
  by_cases hov : jptm.BlobTypeOverride = BlobType.Detect <;> cases hb : sip.blob <;>
    cases hq : lib.Parse jptm.Info.Source <;> simp [hov]
  all_goals (intro _ h2; exact h2.symm)

/-- The resolution stage succeeds exactly when it completes. -/
theorem resolveTargetBlobType_ok (lib : URLFuns) (table : List (String × AzBlobType))
    (jptm : JobPartTransferMgr) (d : String) (sip : SourceInfoProvider)
    (t2 : List Event) (t : AzBlobType)
    (h : resolveTargetBlobType lib table jptm d sip = (t2, .ok t)) :
    resolutionCompletes lib jptm sip = true := by
  revert h
  unfold resolveTargetBlobType resolutionCompletes parses
  by_cases hov : jptm.BlobTypeOverride = BlobType.Detect <;> cases hb : sip.blob <;>
    cases hq : lib.Parse jptm.Info.Source <;> simp [hov]

/-- The debug line is no call of the resolution and no notice. -/
theorem debugLog_calls (jptm : JobPartTransferMgr) (d : String) (sip : SourceInfoProvider)
    (t : AzBlobType) :
    blobTypeCalls (debugLog jptm d sip t) = 0 ∧ parseSourceCalls (debugLog jptm d sip t) = 0 ∧
    inferBlobTypeCalls (debugLog jptm d sip t) = 0 ∧ noticeCount (debugLog jptm d sip t) = 0 := by
  unfold debugLog
  split <;> simp [blobTypeCalls, parseSourceCalls, inferBlobTypeCalls, noticeCount]

/-- The sender selection makes no call of the resolution, sends no notice and never
panics or fails. -/
theorem selectSender_calls (jptm : JobPartTransferMgr) (d : String) (sip : SourceInfoProvider)
    (t : AzBlobType) :
    blobTypeCalls (selectSender jptm d sip t).1 = 0 ∧
    parseSourceCalls (selectSender jptm d sip t).1 = 0 ∧
    inferBlobTypeCalls (selectSender jptm d sip t).1 = 0 ∧
    noticeCount (selectSender jptm d sip t).1 = 0 ∧
    ∃ ctor, (selectSender jptm d sip t).2 = Outcome.sender ctor d := by
  unfold selectSender
  (repeat' split) <;> simp [blobTypeCalls, parseSourceCalls, inferBlobTypeCalls, noticeCount]

/-- For a folder or a symlink the sender selected is the one of the entity kind. -/
theorem selectSender_entity (jptm : JobPartTransferMgr) (d : String)
    (sip : SourceInfoProvider) (t : AzBlobType)
    (hkind : jptm.Info.EntityType = EntityType.Folder ∨
      jptm.Info.EntityType = EntityType.Symlink) :
    (selectSender jptm d sip t).2 = Outcome.sender (entitySender jptm.Info.EntityType) d := by
  unfold selectSender TransferInfo.IsFolderPropertiesTransfer
  rcases hkind with hk | hk <;> simp [hk, entitySender]

/-- The endpoint stage makes no call of the resolution. -/
theorem endpointStage_calls (lib : URLFuns) (once : Bool) (jptm : JobPartTransferMgr)
    (d : String) :
    blobTypeCalls (endpointStage lib once jptm d).1 = 0 ∧
    parseSourceCalls (endpointStage lib once jptm d).1 = 0 ∧
    inferBlobTypeCalls (endpointStage lib once jptm d).1 = 0 := by
  unfold endpointStage rewriteToBlobEndpoint OnceDo
  by_cases hto : jptm.To = Location.BlobFS <;> cases hp : lib.Parse d <;> cases once <;>
    simp [hto, blobTypeCalls, parseSourceCalls, inferBlobTypeCalls]

/-- A call that reaches line 61 is the resolution stage followed by the debug line and
the sender selection, run on the destination the endpoint stage hands on; the endpoint
stage makes no call of the resolution. -/
theorem newURLToBlobCopier_reached (lib : URLFuns) (table : List (String × AzBlobType))
    (once : Bool) (jptm : JobPartTransferMgr) (destination : String)
    (sip : SourceInfoProvider)
    (hreach : reachesResolution lib jptm destination sip = true) :
    ∃ (t1 : List Event) (d' : String) (once' : Bool),
      blobTypeCalls t1 = 0 ∧ parseSourceCalls t1 = 0 ∧ inferBlobTypeCalls t1 = 0 ∧
      newURLToBlobCopier lib table once jptm destination sip
        = (match resolveTargetBlobType lib table jptm d' sip with
            | (t2, .error err) =>
              { once := once', trace := t1 ++ t2, targetBlobType := none,
                outcome := Outcome.error err }
            | (t2, .ok targetBlobType) =>
              { once := once',
                trace := t1 ++ t2 ++ debugLog jptm d' sip targetBlobType
                  ++ (selectSender jptm d' sip targetBlobType).1,
                targetBlobType := some targetBlobType,
                outcome := (selectSender jptm d' sip targetBlobType).2 }) := by
  have hrem : sip.remote = true := by
    simp [reachesResolution] at hreach
    exact hreach.1
  rcases h1 : endpointStage lib once jptm destination with ⟨t1, e | ⟨d', once'⟩⟩
  · obtain ⟨hto, hpd, _⟩ := endpointStage_error _ _ _ _ _ _ h1
    simp [reachesResolution, hto, hpd] at hreach
  · obtain ⟨_, hc1, hc2, hc3, _, _⟩ := endpointStage_ok _ _ _ _ _ _ _ h1
    refine ⟨t1, d', once', hc1, hc2, hc3, ?_⟩
    simp only [newURLToBlobCopier, hrem, h1]
    rcases resolveTargetBlobType lib table jptm d' sip with ⟨t2, e | t⟩ <;> simp

/-- A call that does not reach line 61 makes no call of the resolution and resolves no
blob type. -/
theorem newURLToBlobCopier_not_reached (lib : URLFuns) (table : List (String × AzBlobType))
    (once : Bool) (jptm : JobPartTransferMgr) (destination : String)
    (sip : SourceInfoProvider)
    (hreach : reachesResolution lib jptm destination sip = false) :
    blobTypeCalls (newURLToBlobCopier lib table once jptm destination sip).trace = 0 ∧
    parseSourceCalls (newURLToBlobCopier lib table once jptm destination sip).trace = 0 ∧
    inferBlobTypeCalls (newURLToBlobCopier lib table once jptm destination sip).trace = 0 ∧
    (newURLToBlobCopier lib table once jptm destination sip).targetBlobType = none := by
  cases hrem : sip.remote
  · simp [newURLToBlobCopier, hrem, blobTypeCalls, parseSourceCalls, inferBlobTypeCalls]
  · obtain ⟨hc1, hc2, hc3⟩ := endpointStage_calls lib once jptm destination
    rcases h1 : endpointStage lib once jptm destination with ⟨t1, e | ⟨d', once'⟩⟩
    · rw [h1] at hc1 hc2 hc3
      simp only [newURLToBlobCopier, hrem, h1]
      exact ⟨hc1, hc2, hc3, rfl⟩
    · obtain ⟨hre, _⟩ := endpointStage_ok _ _ _ _ _ _ _ h1
      simp [reachesResolution, hrem] at hreach
      simp [hreach] at hre

/-- A provider with the remote capability never makes the call panic. -/
theorem remote_no_panic (lib : URLFuns) (table : List (String × AzBlobType))
    (once : Bool) (jptm : JobPartTransferMgr) (destination : String)
    (sip : SourceInfoProvider) (hrem : sip.remote = true) (p : Panic) :
    (newURLToBlobCopier lib table once jptm destination sip).outcome ≠ Outcome.panic p := by
  rcases h1 : endpointStage lib once jptm destination with ⟨t1, e | ⟨d', once'⟩⟩
  · simp [newURLToBlobCopier, hrem, h1]
  · rcases h2 : resolveTargetBlobType lib table jptm d' sip with ⟨t2, e | t⟩
    · simp [newURLToBlobCopier, hrem, h1, h2]
    · obtain ⟨_, _, _, _, ctor, hsel⟩ := selectSender_calls jptm d' sip t
      simp [newURLToBlobCopier, hrem, h1, h2, hsel]

/-- What one call does to the guard and how many notices it sends. -/
theorem call_guard (lib : URLFuns) (table : List (String × AzBlobType))
    (once : Bool) (jptm : JobPartTransferMgr) (destination : String)
    (sip : SourceInfoProvider) :
    (newURLToBlobCopier lib table once jptm destination sip).once
      = (once || triggersRewrite lib ⟨jptm, destination, sip⟩) ∧
    noticeCount (newURLToBlobCopier lib table once jptm destination sip).trace
      = (if triggersRewrite lib ⟨jptm, destination, sip⟩ = true ∧ once = false
          then 1 else 0) := by
  cases hrem : sip.remote
  · simp [newURLToBlobCopier, triggersRewrite, hrem, noticeCount]
  · rcases h1 : endpointStage lib once jptm destination with ⟨t1, e | ⟨d', once'⟩⟩
    · obtain ⟨hto, hpd, hn⟩ := endpointStage_error _ _ _ _ _ _ h1
      simp [newURLToBlobCopier, triggersRewrite, hrem, h1, hpd, hn]
    · obtain ⟨hre, _, _, _, hn, ho⟩ := endpointStage_ok _ _ _ _ _ _ _ h1
      have hn2 := resolveTargetBlobType_notice lib table jptm d' sip
      have htr : triggersRewrite lib ⟨jptm, destination, sip⟩
          = decide (jptm.To = Location.BlobFS) := by
        by_cases hto : jptm.To = Location.BlobFS
        · simp [hto] at hre
          simp [triggersRewrite, hrem, hto, hre]
        · simp [triggersRewrite, hrem, hto]
      rcases h2 : resolveTargetBlobType lib table jptm d' sip with ⟨t2, e | t⟩
      · rw [h2] at hn2
        simp at hn2
        simp [newURLToBlobCopier, hrem, h1, h2, htr, ho, noticeCount_append, hn, hn2]
      · obtain ⟨_, _, _, hd⟩ := debugLog_calls jptm d' sip t
        obtain ⟨_, _, _, hs, _⟩ := selectSender_calls jptm d' sip t
        rw [h2] at hn2
        simp at hn2
        simp [newURLToBlobCopier, hrem, h1, h2, htr, ho, noticeCount_append, hn, hn2, hd, hs]

/-- A run of transfers that all trigger the rewrite: the guard ends set as soon as there
is one transfer, and one notice is sent if and only if the guard started unset. -/
theorem runTransfers_guard (lib : URLFuns) (table : List (String × AzBlobType)) :
    ∀ (ts : List Transfer) (once : Bool), (∀ t ∈ ts, triggersRewrite lib t = true) →
      (runTransfers lib table once ts).1 = (once || !ts.isEmpty) ∧
      noticeCount (runTransfers lib table once ts).2
        = (if once = false ∧ ts.isEmpty = false then 1 else 0) := by
  intro ts
  induction ts with
  | nil => intro once _; simp [runTransfers, noticeCount]
  | cons t rest ih =>
    intro once hall
    have ht : triggersRewrite lib t = true := hall t (List.mem_cons_self _ _)
    have hrest : ∀ t' ∈ rest, triggersRewrite lib t' = true :=
      fun t' h' => hall t' (List.mem_cons_of_mem _ h')
    have hrem : t.sip.remote = true := by
      simp [triggersRewrite] at ht
      exact ht.1.1
    obtain ⟨hg, hn⟩ := call_guard lib table once t.jptm t.destination t.sip
    have hnp := remote_no_panic lib table once t.jptm t.destination t.sip hrem
    have ht' : triggersRewrite lib ⟨t.jptm, t.destination, t.sip⟩ = true := ht
    rw [ht'] at hg hn
    simp at hg
    obtain ⟨ih1, ih2⟩ := ih true hrest
    rcases ho : (newURLToBlobCopier lib table once t.jptm t.destination t.sip).outcome with
      ⟨c, d⟩ | e | msg
    · simp [runTransfers, ho, hg, ih1, ih2, noticeCount_append, hn]
    · simp [runTransfers, ho, hg, ih1, ih2, noticeCount_append, hn]
    · exact absurd ho (hnp msg)

/-! ## Claims about the entity kind and the capability probes -/

/-- C1, counterexample: two folder transfers under `Detect`. For a source without
native blob type whose URL does not parse, the source URL is parsed and the call returns
an error, not the folder sender; for a blob source, `BlobType()` is called once before
the folder sender is chosen. -/
theorem folder_transfer_runs_resolution :
    (newURLToBlobCopier SimpleURL.lib documentedTable false
        (Examples.jptm Location.Blob BlobType.Detect Examples.badSource EntityType.Folder)
        Examples.blobDestination (Examples.fileShareSource Examples.badSource))
      = { once := false, trace := [Event.parseSource Examples.badSource],
          targetBlobType := none,
          outcome := Outcome.error (CopierError.sourceParse Examples.badSource) } ∧
    blobTypeCalls (newURLToBlobCopier SimpleURL.lib documentedTable false
        (Examples.jptm Location.Blob BlobType.Detect "https://a.example/c/dir"
          EntityType.Folder)
        Examples.blobDestination
        (Examples.blobSource "https://a.example/c/dir" AzBlobType.BlobBlockBlob)).trace = 1 := by
  decide

/-- C1, as amended: for a transfer whose entity kind is FolderProperties or Symlink, the
folder-property (resp. symlink) sender is selected once the blob-type resolution has
completed, and only then, whatever type was resolved. The resolution runs first as it
does for a file: under `Detect`, `BlobType()` is called once on a blob source, and for
any other source the source URL is parsed once, `inferBlobType` being called once if it
parses and the call returning an error if it does not; with an explicit override none
of the three is called. -/
theorem entity_sender_after_resolution (lib : URLFuns) (table : List (String × AzBlobType))
    (once : Bool) (jptm : JobPartTransferMgr) (destination : String)
    (sip : SourceInfoProvider) (r : Run)
    (hr : r = newURLToBlobCopier lib table once jptm destination sip)
    (hkind : jptm.Info.EntityType = EntityType.Folder ∨
      jptm.Info.EntityType = EntityType.Symlink) :
    (reachesResolution lib jptm destination sip = true →
      resolutionCompletes lib jptm sip = true →
      ∃ dest, r.outcome = Outcome.sender (entitySender jptm.Info.EntityType) dest) ∧
    (∀ ctor dest, r.outcome = Outcome.sender ctor dest →
      ctor = entitySender jptm.Info.EntityType ∧ r.targetBlobType ≠ none) ∧
    (reachesResolution lib jptm destination sip = true →
      resolutionCompletes lib jptm sip = false →
      r.outcome = Outcome.error (CopierError.sourceParse jptm.Info.Source)) ∧
    (reachesResolution lib jptm destination sip = true →
      jptm.BlobTypeOverride = BlobType.Detect →
      blobTypeCalls r.trace = (if sip.blob.isSome then 1 else 0) ∧
      parseSourceCalls r.trace = (if sip.blob.isSome then 0 else 1) ∧
      inferBlobTypeCalls r.trace
        = (if sip.blob.isSome then 0 else if parses lib jptm.Info.Source then 1 else 0)) ∧
    (jptm.BlobTypeOverride ≠ BlobType.Detect →
      blobTypeCalls r.trace = 0 ∧ parseSourceCalls r.trace = 0 ∧
      inferBlobTypeCalls r.trace = 0) := by
  subst hr
  have hcallsAll : ∀ (d : String), jptm.BlobTypeOverride = BlobType.Detect →
      blobTypeCalls (resolveTargetBlobType lib table jptm d sip).1
        = (if sip.blob.isSome then 1 else 0) ∧
      parseSourceCalls (resolveTargetBlobType lib table jptm d sip).1
        = (if sip.blob.isSome then 0 else 1) ∧
      inferBlobTypeCalls (resolveTargetBlobType lib table jptm d sip).1
        = (if sip.blob.isSome then 0 else if parses lib jptm.Info.Source then 1 else 0) := by
    intro d hov
    unfold resolveTargetBlobType autodetectLog parses
    cases hb : sip.blob <;> cases hq : lib.Parse jptm.Info.Source <;>
      simp [hov, blobTypeCalls, parseSourceCalls, inferBlobTypeCalls] <;>
      (repeat' split) <;> simp
  have hcallsoAll : ∀ (d : String), jptm.BlobTypeOverride ≠ BlobType.Detect →
      blobTypeCalls (resolveTargetBlobType lib table jptm d sip).1 = 0 ∧
      parseSourceCalls (resolveTargetBlobType lib table jptm d sip).1 = 0 ∧
      inferBlobTypeCalls (resolveTargetBlobType lib table jptm d sip).1 = 0 := by
    intro d hov
    unfold resolveTargetBlobType
    simp only [hov, ne_eq, not_false_eq_true, if_true]
    split <;> simp [blobTypeCalls, parseSourceCalls, inferBlobTypeCalls]
  cases hreach : reachesResolution lib jptm destination sip
  · obtain ⟨hn1, hn2, hn3, hn4⟩ :=
      newURLToBlobCopier_not_reached lib table once jptm destination sip hreach
    refine ⟨by simp, ?_, by simp, by simp, fun _ => ⟨hn1, hn2, hn3⟩⟩
    intro ctor dest ho
    exfalso
    revert ho
    cases hrem : sip.remote
    · simp [newURLToBlobCopier, hrem]
    · rcases h1 : endpointStage lib once jptm destination with ⟨t1, e | ⟨d', once'⟩⟩
      · simp [newURLToBlobCopier, hrem, h1]
      · obtain ⟨hre, _⟩ := endpointStage_ok _ _ _ _ _ _ _ h1
        simp [reachesResolution, hrem] at hreach
        simp [hreach] at hre
  · obtain ⟨t1, d', once', hc1, hc2, hc3, heq⟩ :=
      newURLToBlobCopier_reached lib table once jptm destination sip hreach
    rw [heq]
    have hcalls := hcallsAll d'
    have hcallso := hcallsoAll d'
    rcases h2 : resolveTargetBlobType lib table jptm d' sip with ⟨t2, e | t⟩
    · obtain ⟨hcomp, _, he⟩ := resolveTargetBlobType_error _ _ _ _ _ _ _ h2
      rw [h2] at hcalls hcallso
      simp only [blobTypeCalls_append, parseSourceCalls_append, inferBlobTypeCalls_append,
        hc1, hc2, hc3, zero_add, hcomp, he]
      refine ⟨by simp, by simp, by simp, fun _ hov => ?_, fun hov => ?_⟩
      · simpa using hcalls hov
      · simpa using hcallso hov
    · have hcomp := resolveTargetBlobType_ok _ _ _ _ _ _ _ h2
      obtain ⟨hd1, hd2, hd3, _⟩ := debugLog_calls jptm d' sip t
      obtain ⟨hs1, hs2, hs3, _, _⟩ := selectSender_calls jptm d' sip t
      have hsel := selectSender_entity jptm d' sip t hkind
      rw [h2] at hcalls hcallso
      simp only [blobTypeCalls_append, parseSourceCalls_append, inferBlobTypeCalls_append,
        hc1, hc2, hc3, hd1, hd2, hd3, hs1, hs2, hs3, zero_add, add_zero, hcomp, hsel]
      refine ⟨by simp, by simp, by simp, fun _ hov => ?_, fun hov => ?_⟩
      · simpa using hcalls hov
      · simpa using hcallso hov

/-- Witness for C1: a symlink of a file share, copied under `Detect`. -/
theorem entity_sender_after_resolution_witness :
    ∃ dest,
      (newURLToBlobCopier SimpleURL.lib documentedTable false
        (Examples.jptm Location.Blob BlobType.Detect "https://files.example/share/link"
          EntityType.Symlink)
        Examples.blobDestination
        (Examples.fileShareSource "https://files.example/share/link")).outcome
      = Outcome.sender SenderCtor.newBlobSymlinkSender dest :=
  (entity_sender_after_resolution SimpleURL.lib documentedTable false
      (Examples.jptm Location.Blob BlobType.Detect "https://files.example/share/link"
        EntityType.Symlink)
      Examples.blobDestination
      (Examples.fileShareSource "https://files.example/share/link") _ rfl
      (Or.inr rfl)).1 (by decide) (by decide)

/-- C10, counterexample: a local provider, which is an `ISourceInfoProvider` without
the remote capability, makes the call panic at the type assertion of line 38. -/
theorem missing_remote_capability_panics :
    (newURLToBlobCopier SimpleURL.lib documentedTable false
        (Examples.jptm Location.Blob BlobType.BlockBlob "/mnt/data/a.txt" EntityType.File)
        Examples.blobDestination (Examples.localSource "/mnt/data/a.txt")).outcome
      = Outcome.panic Panic.typeAssertionError := by
  decide

/-- C10, as amended: the probe for `IBlobSourceInfoProvider` is a checked query. A
provider with the remote capability never makes the call panic, with or without a native
blob type; under `Detect` the presence of a native blob type routes the resolution to
`BlobType()` and its absence routes it to the inference from the parsed source URL, and
without it the call returns an error only if a URL fails to parse. The probe for
`IRemoteSourceInfoProvider` is an unchecked assertion: a provider that lacks that
capability makes the call panic with a type-assertion error before anything is done. -/
theorem capability_probes (lib : URLFuns) (table : List (String × AzBlobType))
    (once : Bool) (jptm : JobPartTransferMgr) (destination : String)
    (sip : SourceInfoProvider) :
    (sip.remote = false →
      newURLToBlobCopier lib table once jptm destination sip
        = { once := once, trace := [], targetBlobType := none,
            outcome := Outcome.panic Panic.typeAssertionError }) ∧
    (sip.remote = true →
      ∀ p, (newURLToBlobCopier lib table once jptm destination sip).outcome
        ≠ Outcome.panic p) ∧
    (reachesResolution lib jptm destination sip = true →
      jptm.BlobTypeOverride = BlobType.Detect →
      ∀ t, sip.blob = some t →
        (newURLToBlobCopier lib table once jptm destination sip).targetBlobType = some t ∧
        blobTypeCalls (newURLToBlobCopier lib table once jptm destination sip).trace = 1 ∧
        parseSourceCalls (newURLToBlobCopier lib table once jptm destination sip).trace = 0 ∧
        inferBlobTypeCalls
          (newURLToBlobCopier lib table once jptm destination sip).trace = 0) ∧
    (reachesResolution lib jptm destination sip = true →
      jptm.BlobTypeOverride = BlobType.Detect → sip.blob = none →
        blobTypeCalls (newURLToBlobCopier lib table once jptm destination sip).trace = 0 ∧
        parseSourceCalls (newURLToBlobCopier lib table once jptm destination sip).trace = 1 ∧
        (∀ srcURL, lib.Parse jptm.Info.Source = .ok srcURL →
          (newURLToBlobCopier lib table once jptm destination sip).targetBlobType
            = some (inferBlobType table srcURL.Path AzBlobType.BlobBlockBlob) ∧
          inferBlobTypeCalls
            (newURLToBlobCopier lib table once jptm destination sip).trace = 1) ∧
        (∀ e, lib.Parse jptm.Info.Source = .error e →
          (newURLToBlobCopier lib table once jptm destination sip).outcome
            = Outcome.error (CopierError.sourceParse jptm.Info.Source) ∧
          inferBlobTypeCalls
            (newURLToBlobCopier lib table once jptm destination sip).trace = 0)) ∧
    (sip.remote = true → sip.blob = none →
      ∀ e, (newURLToBlobCopier lib table once jptm destination sip).outcome = Outcome.error e →
        parses lib destination = false ∨ parses lib jptm.Info.Source = false) := by
  have hcallsAll : ∀ (d : String), jptm.BlobTypeOverride = BlobType.Detect →
      blobTypeCalls (resolveTargetBlobType lib table jptm d sip).1
        = (if sip.blob.isSome then 1 else 0) ∧
      parseSourceCalls (resolveTargetBlobType lib table jptm d sip).1
        = (if sip.blob.isSome then 0 else 1) ∧
      inferBlobTypeCalls (resolveTargetBlobType lib table jptm d sip).1
        = (if sip.blob.isSome then 0 else if parses lib jptm.Info.Source then 1 else 0) := by
    intro d hov
    unfold resolveTargetBlobType autodetectLog parses
    cases hb : sip.blob <;> cases hq : lib.Parse jptm.Info.Source <;>
      simp [hov, blobTypeCalls, parseSourceCalls, inferBlobTypeCalls] <;>
      (repeat' split) <;> simp
  have hresAll : ∀ (d : String), jptm.BlobTypeOverride = BlobType.Detect →
      (resolveTargetBlobType lib table jptm d sip).2
        = (match sip.blob with
            | some t => .ok t
            | none =>
              match lib.Parse jptm.Info.Source with
              | .ok srcURL => .ok (inferBlobType table srcURL.Path AzBlobType.BlobBlockBlob)
              | .error _ => .error (CopierError.sourceParse jptm.Info.Source)) := by
    intro d hov
    unfold resolveTargetBlobType
    cases hb : sip.blob <;> cases hq : lib.Parse jptm.Info.Source <;> simp [hov]
  refine ⟨?_, ?_, ?_, ?_, ?_⟩
  · intro hrem
    simp [newURLToBlobCopier, hrem]
  · intro hrem p
    exact remote_no_panic lib table once jptm destination sip hrem p
  · intro hreach hov t hb
    obtain ⟨t1, d', once', hc1, hc2, hc3, heq⟩ :=
      newURLToBlobCopier_reached lib table once jptm destination sip hreach
    rw [heq]
    have hcalls := hcallsAll d' hov
    have hres := hresAll d' hov
    rcases h2 : resolveTargetBlobType lib table jptm d' sip with ⟨t2, e | t'⟩
    · rw [h2] at hres
      simp [hb] at hres
    · obtain ⟨hd1, hd2, hd3, _⟩ := debugLog_calls jptm d' sip t'
      obtain ⟨hs1, hs2, hs3, _, _⟩ := selectSender_calls jptm d' sip t'
      rw [h2] at hres hcalls
      simp [hb] at hres hcalls
      simp only [blobTypeCalls_append, parseSourceCalls_append, inferBlobTypeCalls_append,
        hc1, hc2, hc3, hd1, hd2, hd3, hs1, hs2, hs3, zero_add, add_zero, hcalls]
      simp [hres]
  · intro hreach hov hb
    obtain ⟨t1, d', once', hc1, hc2, hc3, heq⟩ :=
      newURLToBlobCopier_reached lib table once jptm destination sip hreach
    rw [heq]
    have hcalls := hcallsAll d' hov
    have hres := hresAll d' hov
    rcases h2 : resolveTargetBlobType lib table jptm d' sip with ⟨t2, e | t'⟩
    · rw [h2] at hres hcalls
      simp [hb] at hres hcalls
      simp only [blobTypeCalls_append, parseSourceCalls_append, inferBlobTypeCalls_append,
        hc1, hc2, hc3, zero_add, hcalls]
      refine ⟨trivial, trivial, ?_, ?_⟩
      · intro srcURL hq
        simp [hq] at hres
      · intro e' hq
        simp [hq] at hres
        simp [parses, hq, hres]
    · obtain ⟨hd1, hd2, hd3, _⟩ := debugLog_calls jptm d' sip t'
      obtain ⟨hs1, hs2, hs3, _, _⟩ := selectSender_calls jptm d' sip t'
      rw [h2] at hres hcalls
      simp [hb] at hres hcalls
      simp only [blobTypeCalls_append, parseSourceCalls_append, inferBlobTypeCalls_append,
        hc1, hc2, hc3, hd1, hd2, hd3, hs1, hs2, hs3, zero_add, add_zero, hcalls]
      refine ⟨trivial, trivial, ?_, ?_⟩
      · intro srcURL hq
        simp [hq] at hres
        simp [parses, hq, hres]
      · intro e' hq
        simp [hq] at hres
  · intro hrem hb e
    rcases h1 : endpointStage lib once jptm destination with ⟨t1, e1 | ⟨d', once'⟩⟩
    · obtain ⟨_, hpd, _⟩ := endpointStage_error _ _ _ _ _ _ h1
      simp [hpd]
    · rcases h2 : resolveTargetBlobType lib table jptm d' sip with ⟨t2, e2 | t⟩
      · obtain ⟨hcomp, _, _⟩ := resolveTargetBlobType_error _ _ _ _ _ _ _ h2
        have hps : parses lib jptm.Info.Source = false := by
          simp [resolutionCompletes] at hcomp
          exact hcomp.2
        simp [hps]
      · obtain ⟨_, _, _, _, ctor, hsel⟩ := selectSender_calls jptm d' sip t
        simp [newURLToBlobCopier, hrem, h1, h2, hsel]

/-- Witness for C10: a remote provider without native blob type gets a sender. -/
theorem capability_probes_witness :
    ∀ msg, (newURLToBlobCopier SimpleURL.lib documentedTable false
        (Examples.jptm Location.Blob BlobType.Detect "https://files.example/share/a.txt"
          EntityType.File)
        Examples.blobDestination
        (Examples.fileShareSource "https://files.example/share/a.txt")).outcome
      ≠ Outcome.panic msg :=
  (capability_probes SimpleURL.lib documentedTable false
      (Examples.jptm Location.Blob BlobType.Detect "https://files.example/share/a.txt"
        EntityType.File)
      Examples.blobDestination
      (Examples.fileShareSource "https://files.example/share/a.txt")).2.1 rfl

/-! ## Claims about the one-shot notice -/

/-- C8: in a run of `N ≥ 1` transfers that all trigger the endpoint rewrite, taken in
any order, the notice is sent exactly once. The guard starts unset; a trigger that finds
it unset sends the notice and sets it; no call ever resets it, and a trigger that finds
it set sends nothing. -/
theorem notice_exactly_once (lib : URLFuns) (table : List (String × AzBlobType))
    (ts : List Transfer) (hne : ts ≠ [])
    (hall : ∀ t ∈ ts, triggersRewrite lib t = true) :
    LogBlobConversionOnce = false ∧
    noticeCount (runTransfers lib table LogBlobConversionOnce ts).2 = 1 ∧
    (runTransfers lib table LogBlobConversionOnce ts).1 = true ∧
    (∀ t ∈ ts,
      (newURLToBlobCopier lib table false t.jptm t.destination t.sip).once = true ∧
      noticeCount (newURLToBlobCopier lib table false t.jptm t.destination t.sip).trace = 1 ∧
      noticeCount (newURLToBlobCopier lib table true t.jptm t.destination t.sip).trace = 0) ∧
    (∀ (jptm : JobPartTransferMgr) (destination : String) (sip : SourceInfoProvider),
      (newURLToBlobCopier lib table true jptm destination sip).once = true) := by
  obtain ⟨h1, h2⟩ := runTransfers_guard lib table ts LogBlobConversionOnce hall
  refine ⟨rfl, ?_, ?_, ?_, ?_⟩
  · cases ts with
    | nil => exact absurd rfl hne
    | cons t rest => simpa [LogBlobConversionOnce] using h2
  · cases ts with
    | nil => exact absurd rfl hne
    | cons t rest => simpa [LogBlobConversionOnce] using h1
  · intro t ht
    have htr : triggersRewrite lib ⟨t.jptm, t.destination, t.sip⟩ = true := hall t ht
    obtain ⟨ha, hb⟩ := call_guard lib table false t.jptm t.destination t.sip
    obtain ⟨_, hc⟩ := call_guard lib table true t.jptm t.destination t.sip
    rw [htr] at ha hb
    refine ⟨by simpa using ha, by simpa using hb, by simpa using hc⟩
  · intro jptm destination sip
    simpa using (call_guard lib table true jptm destination sip).1

/-- Witness for C8: three dfs transfers send one notice. -/
theorem notice_exactly_once_witness :
    noticeCount (runTransfers SimpleURL.lib documentedTable LogBlobConversionOnce
      [⟨Examples.jptm Location.BlobFS BlobType.Detect "https://a.example/c/x" EntityType.File,
          Examples.dfsDestination,
          Examples.blobSource "https://a.example/c/x" AzBlobType.BlobBlockBlob⟩,
       ⟨Examples.jptm Location.BlobFS BlobType.PageBlob "https://a.example/c/y" EntityType.File,
          Examples.dfsDestination, Examples.fileShareSource "https://a.example/c/y"⟩,
       ⟨Examples.jptm Location.BlobFS BlobType.Detect "https://a.example/c/z" EntityType.Folder,
          Examples.dfsDestination, Examples.fileShareSource "https://a.example/c/z"⟩]).2 = 1 :=
  (notice_exactly_once SimpleURL.lib documentedTable _ (by simp)
    (by
      intro t ht
      simp only [List.mem_cons, List.mem_singleton, List.not_mem_nil, or_false] at ht
      rcases ht with rfl | rfl | rfl <;> rfl)).2.1

/-! ## Claims about `GetSDDL` -/

/-- C3, counterexample: the fetch and the conversion to text succeed and `ParseSDDL`
rejects the text; `GetSDDL` returns the error of line 40 and does not panic. -/
theorem parse_failure_is_returned :
    Examples.sddlParseFails.QuerySecurityObject "/mnt/share/a.txt" 7 = .ok [1, 0, 4, 128] ∧
    Examples.localFile.GetSDDL Examples.sddlParseFails
      = GoResult.err (SDDLError.parseFailed "O:BAG:BAD:(A;;FA;;;BA) " "invalid SDDL") :=
  ⟨rfl, by decide⟩

/-- C3, as amended: `GetSDDL` returns an error exactly when the descriptor fetch fails
or, the fetch and the conversion to text having succeeded, `ParseSDDL` fails on that
text; it panics exactly when the conversion to text fails or the parsed descriptor does
not print back to the same trimmed text. -/
theorem GetSDDL_errors_and_panics {P : Type} (lib : SDDLFuns P)
    (f : localFileSourceInfoProvider) :
    ((∃ e, f.GetSDDL lib = GoResult.err e) ↔
      ((∃ err, lib.QuerySecurityObject f.jptm.Info.Source
          (lib.DACL_SECURITY_INFORMATION ||| lib.OWNER_SECURITY_INFORMATION |||
            lib.GROUP_SECURITY_INFORMATION) = .error err) ∨
       (∃ sd sdStr err, lib.QuerySecurityObject f.jptm.Info.Source
          (lib.DACL_SECURITY_INFORMATION ||| lib.OWNER_SECURITY_INFORMATION |||
            lib.GROUP_SECURITY_INFORMATION) = .ok sd ∧
          lib.SecurityDescriptorToString sd = .ok sdStr ∧
          lib.ParseSDDL sdStr = .error err))) ∧
    ((∃ msg, f.GetSDDL lib = GoResult.panic msg) ↔
      (∃ sd, lib.QuerySecurityObject f.jptm.Info.Source
          (lib.DACL_SECURITY_INFORMATION ||| lib.OWNER_SECURITY_INFORMATION |||
            lib.GROUP_SECURITY_INFORMATION) = .ok sd ∧
        ((∃ err, lib.SecurityDescriptorToString sd = .error err) ∨
         (∃ sdStr fSDDL, lib.SecurityDescriptorToString sd = .ok sdStr ∧
            lib.ParseSDDL sdStr = .ok fSDDL ∧
            TrimSpace (lib.SDDLString fSDDL) ≠ TrimSpace sdStr)))) := by
  unfold localFileSourceInfoProvider.GetSDDL
  cases hq : lib.QuerySecurityObject f.jptm.Info.Source
      (lib.DACL_SECURITY_INFORMATION ||| lib.OWNER_SECURITY_INFORMATION |||
        lib.GROUP_SECURITY_INFORMATION) with
  | error err => simp [hq]
  | ok sd =>
    cases hs : lib.SecurityDescriptorToString sd with
    | error err => simp [hq, hs]
    | ok sdStr =>
      cases hp : lib.ParseSDDL sdStr with
      | error err => simp [hq, hs, hp]
      | ok fSDDL =>
        by_cases ht : TrimSpace (lib.SDDLString fSDDL) = TrimSpace sdStr <;>
          simp [hq, hs, hp, ht]

/-- C9: whenever `GetSDDL` returns a string, the descriptor was fetched, its text
`sdStr` parsed, the parsed descriptor prints back to `sdStr` up to surrounding white
space, and the string returned is the `PortableString()` of the parsed descriptor; and
once fetch, conversion to text and parse have succeeded, `GetSDDL` returns that string
if the two trimmed texts are equal and panics, returning neither a value nor an error,
if they differ. -/
theorem GetSDDL_round_trip {P : Type} (lib : SDDLFuns P) (f : localFileSourceInfoProvider) :
    (∀ s, f.GetSDDL lib = GoResult.ok s →
      ∃ sd sdStr fSDDL,
        lib.QuerySecurityObject f.jptm.Info.Source
          (lib.DACL_SECURITY_INFORMATION ||| lib.OWNER_SECURITY_INFORMATION |||
            lib.GROUP_SECURITY_INFORMATION) = .ok sd ∧
        lib.SecurityDescriptorToString sd = .ok sdStr ∧
        lib.ParseSDDL sdStr = .ok fSDDL ∧
        TrimSpace (lib.SDDLString fSDDL) = TrimSpace sdStr ∧
        s = lib.PortableString fSDDL) ∧
    (∀ sd sdStr fSDDL,
      lib.QuerySecurityObject f.jptm.Info.Source
          (lib.DACL_SECURITY_INFORMATION ||| lib.OWNER_SECURITY_INFORMATION |||
            lib.GROUP_SECURITY_INFORMATION) = .ok sd →
      lib.SecurityDescriptorToString sd = .ok sdStr →
      lib.ParseSDDL sdStr = .ok fSDDL →
      (TrimSpace (lib.SDDLString fSDDL) = TrimSpace sdStr →
        f.GetSDDL lib = GoResult.ok (lib.PortableString fSDDL)) ∧
      (TrimSpace (lib.SDDLString fSDDL) ≠ TrimSpace sdStr →
        f.GetSDDL lib
          = GoResult.panic
              "SDDL sanity check failed (parsed string output != original string)")) := by
  constructor
  · intro s
    unfold localFileSourceInfoProvider.GetSDDL
    cases hq : lib.QuerySecurityObject f.jptm.Info.Source
        (lib.DACL_SECURITY_INFORMATION ||| lib.OWNER_SECURITY_INFORMATION |||
          lib.GROUP_SECURITY_INFORMATION) with
    | error err => simp [hq]
    | ok sd =>
      cases hs : lib.SecurityDescriptorToString sd with
      | error err => simp [hq, hs]
      | ok sdStr =>
        cases hp : lib.ParseSDDL sdStr with
        | error err => simp [hq, hs, hp]
        | ok fSDDL =>
          by_cases ht : TrimSpace (lib.SDDLString fSDDL) = TrimSpace sdStr
          · simp only [hq, hs, hp, ht, ne_eq, not_true_eq_false, if_false]
            intro h
            injection h with h
            exact ⟨sd, sdStr, fSDDL, rfl, hs, hp, ht, h.symm⟩
          · simp [hq, hs, hp, ht]
  · intro sd sdStr fSDDL hq hs hp
    unfold localFileSourceInfoProvider.GetSDDL
    by_cases ht : TrimSpace (lib.SDDLString fSDDL) = TrimSpace sdStr
    · simp [hq, hs, hp, ht]
    · simp [hq, hs, hp, ht]

/-- Witness for C9: a descriptor whose text parses and prints back with a trailing
blank removed is returned in portable form, the returned string implying the round
trip; and one that prints back differently makes the call panic. -/
theorem GetSDDL_round_trip_witness :
    (∃ sd sdStr fSDDL,
      Examples.sddlFaithful.QuerySecurityObject Examples.localFile.jptm.Info.Source
          (Examples.sddlFaithful.DACL_SECURITY_INFORMATION |||
            Examples.sddlFaithful.OWNER_SECURITY_INFORMATION |||
            Examples.sddlFaithful.GROUP_SECURITY_INFORMATION) = .ok sd ∧
        Examples.sddlFaithful.SecurityDescriptorToString sd = .ok sdStr ∧
        Examples.sddlFaithful.ParseSDDL sdStr = .ok fSDDL ∧
        TrimSpace (Examples.sddlFaithful.SDDLString fSDDL) = TrimSpace sdStr ∧
        "O:BAG:BAD:(A;;FA;;;BA)" = Examples.sddlFaithful.PortableString fSDDL) ∧
    Examples.localFile.GetSDDL Examples.sddlFaithful
      = GoResult.ok "O:BAG:BAD:(A;;FA;;;BA)" ∧
    Examples.localFile.GetSDDL Examples.sddlMismatch
      = GoResult.panic "SDDL sanity check failed (parsed string output != original string)" :=
  ⟨(GetSDDL_round_trip Examples.sddlFaithful Examples.localFile).1
      "O:BAG:BAD:(A;;FA;;;BA)" (by decide),
   ((GetSDDL_round_trip Examples.sddlFaithful Examples.localFile).2 [1, 0, 4, 128]
      "O:BAG:BAD:(A;;FA;;;BA) " "O:BAG:BAD:(A;;FA;;;BA)" rfl rfl rfl).1 (by decide),
   ((GetSDDL_round_trip Examples.sddlMismatch Examples.localFile).2 [1, 0, 4, 128]
      "O:BAG:BAD:(A;;FA;;;BA) " "O:BAG:BAD:(A;;FA;;;BA)" rfl rfl rfl).2 (by decide)⟩

end AzCopy
